import Mathlib

/-!
Shallow embedding of the pastebin-client repository (src/client.py, src/schemas.py)
and proofs checking the natural-language specification against it.

Conventions of the embedding:
* Python `str` is `String`; a Python variable that may hold `None` is an `Option`.
* Python `int` is `Int`; `datetime` values are UTC instants measured in seconds
  since the epoch (an `Int`); `timedelta` values are second counts.
* Each exception site of the source is mapped to a constructor of `PyErr`
  following the spec's error taxonomy (the generic `Exception` raises are
  distinguished by their construction site: non-2xx status -> `transportError`,
  the login "Bad API request" marker -> `authError`, `ValueError` raises ->
  `valueError`, body-shape errors -> `apiError`, XML failures -> `parseError`);
  a Python call with a keyword argument the callee does not accept raises
  `typeError`, and `.text` on a failed `find` raises `attributeError`.
* Every client operation takes the HTTP response(s) the transport would return
  as explicit arguments and returns, besides its result, the list of request
  payloads it actually issued (empty when it failed before any network call).
-/

/-- A primitive value as it appears in request payloads and in the plain
key-value serialization of the data containers. -/
inductive PyVal : Type where
  | str (s : String)
  | int (n : Int)
  | none
deriving DecidableEq, Repr

/-- Error taxonomy of the spec, plus the interpreter-level errors Python
itself raises (`typeError`, `attributeError`, `keyError`). -/
inductive PyErr : Type where
  | transportError
  | authError
  | valueError
  | apiError
  | parseError
  | typeError
  | attributeError
  | keyError
deriving DecidableEq, Repr

/-- What the injected HTTP transport hands back: a status code and a body. -/
structure HttpResponse : Type where
  status_code : Nat
  text : String
deriving DecidableEq, Repr

/-- A request payload: an ordered list of form fields. -/
def Payload : Type := List (String × PyVal)

/-- Python truthiness of an optional string: `None` and `""` are falsy. -/
def pyTruthy : Option String → Bool
  | Option.none => false
  | Option.some s => !s.isEmpty

/-- Python `a or b` on two optional strings (`a` kept when truthy). -/
def pyOrOpt (a b : Option String) : Option String :=
  if pyTruthy a then a else b

/-- Python `a or d` where `d` is a plain string, as in
`visibility = visibility or "unlisted"`. -/
def pyOrStr (a : Option String) (d : String) : String :=
  match a with
  | Option.some s => if s.isEmpty then d else s
  | Option.none => d

/-- The characters Python's `str.strip()` removes (ASCII whitespace). -/
def isPySpace (c : Char) : Bool :=
  c = ' ' || c = '\t' || c = '\n' || c = '\r' || c = '\x0b' || c = '\x0c'

/-- `str.strip()` on a character list. -/
def pyStripL (cs : List Char) : List Char :=
  ((cs.dropWhile isPySpace).reverse.dropWhile isPySpace).reverse

/-- Python `str.strip()`. -/
def pyStrip (s : String) : String :=
  String.mk (pyStripL s.toList)

/-- Whether `pre` is a prefix of `cs` (Python `str.startswith`). -/
def listPrefixOf : List Char → List Char → Bool
  | [], _ => true
  | _ :: _, [] => false
  | a :: as, b :: bs => a = b && listPrefixOf as bs

/-- Python `s.startswith(pre)`. -/
def strStartsWith (s pre : String) : Bool :=
  listPrefixOf pre.toList s.toList

/-- Python `s.split(sep)` on a character list: splits at every separator and
keeps empty pieces, so the result is always non-empty. -/
def pySplitChar (sep : Char) (cs : List Char) : List (List Char) :=
  cs.foldr
    (fun x acc =>
      if x = sep then [] :: acc
      else
        match acc with
        | a :: rest => (x :: a) :: rest
        | [] => [[x]])
    [[]]

/-- `full_url.split("/")[-1]` of src/client.py line 221: the trailing path
segment of the returned URL. -/
def lastSegment (s : String) : String :=
  String.mk ((pySplitChar '/' s.toList).getLastD [])

/-- The decimal digit character for `d < 10`. -/
def digitChar (d : Nat) : Char := Char.ofNat (48 + d)

/-- The numeric value of a decimal digit character. -/
def charDigit (c : Char) : Nat := c.toNat - 48

/-- Whether `c` is one of `0`..`9`. -/
def isDigitChar (c : Char) : Bool := 48 ≤ c.toNat && c.toNat ≤ 57

/-- Decimal rendering of a natural number as a character list. -/
def natReprL (n : Nat) : List Char :=
  if n = 0 then ['0'] else ((Nat.digits 10 n).map digitChar).reverse

/-- Decimal rendering of an integer. -/
def intReprL (t : Int) : List Char :=
  if t < 0 then '-' :: natReprL (-t).toNat else natReprL t.toNat

/-- Parse a non-empty all-digit character list as a natural number. -/
def natParseL (cs : List Char) : Option Nat :=
  if cs ≠ [] ∧ cs.all isDigitChar then
    Option.some (Nat.ofDigits 10 (cs.reverse.map charDigit))
  else
    Option.none

/-- Parse an optionally signed decimal integer from a character list. -/
def intParseL (cs : List Char) : Option Int :=
  if cs.head? = Option.some '-' then
    match natParseL cs.tail with
    | Option.some n => Option.some (-(n : Int))
    | Option.none => Option.none
  else if cs.head? = Option.some '+' then
    match natParseL cs.tail with
    | Option.some n => Option.some ((n : Int))
    | Option.none => Option.none
  else
    match natParseL cs with
    | Option.some n => Option.some ((n : Int))
    | Option.none => Option.none

/-- Python `int(x)` where `x` may be `None` (as `.text` of an empty XML element
is): `int(None)` raises `TypeError`, an unparseable string raises
`ValueError`, and surrounding whitespace is tolerated. -/
def pyInt (o : Option String) : Except PyErr Int :=
  match o with
  | Option.none => Except.error PyErr.typeError
  | Option.some s =>
    match intParseL (pyStripL s.toList) with
    | Option.some n => Except.ok n
    | Option.none => Except.error PyErr.valueError

/-- Association-list rendering of a Python `dict`; `dictGet` is `d.get(k)`. -/
def dictGet {α β : Type} [BEq α] (d : List (α × β)) (k : α) : Option β :=
  (d.find? (fun p => p.1 == k)).map (fun p => p.2)

/-- `d.get(k, default)` of a Python `dict`. -/
def dictGetD {α β : Type} [BEq α] (d : List (α × β)) (k : α) (dflt : β) : β :=
  (dictGet d k).getD dflt

/-- The fixed allow-list of recognized syntax-highlighting tags
(`HIGHLIGHTING_OPTIONS` of src/client.py). -/
def HIGHLIGHTING_OPTIONS : List String := [
  "4cs", "6502acme", "6502kickass", "6502tasm", "abap", "actionscript",
  "actionscript3", "ada", "aimms", "algol68", "apache", "applescript",
  "apt_sources", "arduino", "arm", "asm", "asp", "asymptote",
  "autoconf", "autohotkey", "autoit", "avisynth", "awk", "bascomavr",
  "bash", "basic4gl", "dos", "bibtex", "b3d", "blitzbasic",
  "bmx", "bnf", "boo", "bf", "c", "csharp",
  "c_winapi", "cpp", "cpp-winapi", "cpp-qt", "c_loadrunner", "caddcl",
  "cadlisp", "ceylon", "cfdg", "c_mac", "chaiscript", "chapel",
  "cil", "clojure", "klonec", "klonecpp", "cmake", "cobol",
  "coffeescript", "cfm", "css", "cuesheet", "d", "dart",
  "dcl", "dcpu16", "dcs", "delphi", "oxygene", "diff",
  "div", "dot", "e", "ezt", "ecmascript", "eiffel",
  "email", "epc", "erlang", "euphoria", "fsharp", "falcon",
  "filemaker", "fo", "f1", "fortran", "freebasic", "freeswitch",
  "gambas", "gml", "gdb", "gdscript", "genero", "genie",
  "gettext", "go", "godot-glsl", "groovy", "gwbasic", "haskell",
  "haxe", "hicest", "hq9plus", "html4strict", "html5", "icon",
  "idl", "ini", "inno", "intercal", "io", "ispfpanel",
  "j", "java", "java5", "javascript", "jcl", "jquery",
  "json", "julia", "kixtart", "kotlin", "ksp", "latex",
  "ldif", "lb", "lsl2", "lisp", "llvm", "locobasic",
  "logtalk", "lolcode", "lotusformulas", "lotusscript", "lscript", "lua",
  "m68k", "magiksf", "make", "mapbasic", "markdown", "matlab",
  "mercury", "metapost", "mirc", "mmix", "mk-61", "modula2",
  "modula3", "68000devpac", "mpasm", "mxml", "mysql", "nagios",
  "netrexx", "newlisp", "nginx", "nim", "nsis", "oberon2",
  "objeck", "objc", "ocaml", "ocaml-brief", "octave", "pf",
  "glsl", "oorexx", "oobas", "oracle8", "oracle11", "oz",
  "parasail", "parigp", "pascal", "pawn", "pcre", "per",
  "perl", "perl6", "phix", "php", "php-brief", "pic16",
  "pike", "pixelbender", "pli", "plsql", "postgresql", "postscript",
  "povray", "powerbuilder", "powershell", "proftpd", "progress", "prolog",
  "properties", "providex", "puppet", "purebasic", "pycon", "python",
  "pys60", "q", "qbasic", "qml", "rsplus", "racket",
  "rails", "rbs", "rebol", "reg", "rexx", "robots",
  "roff", "rpmspec", "ruby", "gnuplot", "rust", "sas",
  "scala", "scheme", "scilab", "scl", "sdlbasic", "smalltalk",
  "smarty", "spark", "sparql", "sqf", "sql", "sshconfig",
  "standardml", "stonescript", "sclang", "swift", "systemverilog", "tsql",
  "tcl", "teraterm", "texgraph", "thinbasic", "typescript", "typoscript",
  "unicon", "uscript", "upc", "urbi", "vala", "vbnet",
  "vbscript", "vedit", "verilog", "vhdl", "vim", "vb",
  "visualfoxpro", "visualprolog", "whitespace", "whois", "winbatch", "xbasic",
  "xml", "xojo", "xorg_conf", "xpp", "yaml", "yara",
  "z80", "zxbasic"
]

/-- The 9-member lifespan/expiration enumeration (`LIFESPAN_OPTIONS`). -/
def LIFESPAN_OPTIONS : List String :=
  ["N", "10M", "1H", "1D", "1W", "2W", "1M", "6M", "1Y"]

/-- `VISIBILITY_MAP_INT_TO_STR` of src/client.py line 66. -/
def VISIBILITY_MAP_INT_TO_STR : List (Int × String) :=
  [(0, "public"), (1, "unlisted"), (2, "private")]

/-- `VISIBILITY_MAP_STR_TO_INT` of src/client.py line 67. -/
def VISIBILITY_MAP_STR_TO_INT : List (String × Int) :=
  [("public", 0), ("unlisted", 1), ("private", 2)]

/-- `ACCOUNT_TYPE_MAP_INT_TO_STR` of src/client.py line 70. -/
def ACCOUNT_TYPE_MAP_INT_TO_STR : List (Int × String) :=
  [(0, "normal"), (1, "pro")]

/-- The local `lifespan_to_timedelta` table of `create_paste`
(src/client.py lines 224-234), with `timedelta` values in seconds and the
"N" (never) code mapping to Python `None`. -/
def LIFESPAN_TO_TIMEDELTA : List (String × Option Int) :=
  [("10M", Option.some 600),
   ("1H", Option.some 3600),
   ("1D", Option.some 86400),
   ("1W", Option.some 604800),
   ("2W", Option.some 1209600),
   ("1M", Option.some 2592000),
   ("6M", Option.some 15552000),
   ("1Y", Option.some 31536000),
   ("N", Option.none)]

/-- The numeric-code-to-name visibility mapping with the "public" default, as
used at src/client.py lines 371-372 and 426-427. -/
def visibilityIntToStr (n : Int) : String :=
  dictGetD VISIBILITY_MAP_INT_TO_STR n "public"

/-- The account-type mapping with the "normal" default
(src/client.py lines 435-436). -/
def accountTypeIntToStr (n : Int) : String :=
  dictGetD ACCOUNT_TYPE_MAP_INT_TO_STR n "normal"

/-- Key membership in the string-to-int visibility dict, i.e. the
`visibility not in VISIBILITY_MAP_STR_TO_INT` check of line 180. -/
def visOK (v : String) : Bool :=
  (dictGet VISIBILITY_MAP_STR_TO_INT v).isSome

/-- An XML element as `xml.etree.ElementTree` presents it for the
attribute-free documents this client consumes: a tag, the child elements,
and the element text (`None` for an element with no text, as ET reports). -/
inductive Xml : Type where
  | node (tag : String) (children : List Xml) (text : Option String)
deriving Repr

/-- The element's tag. -/
def Xml.tag : Xml → String
  | Xml.node t _ _ => t

/-- The element's direct children. -/
def Xml.children : Xml → List Xml
  | Xml.node _ cs _ => cs

/-- The element's text (ET's `.text`, `None` when the element is empty or
has element content). -/
def Xml.text : Xml → Option String
  | Xml.node _ _ t => t

/-- ET `elem.find(tag)`: the first direct child with the given tag. -/
def xfind (e : Xml) (tag : String) : Option Xml :=
  e.children.find? (fun c => c.tag == tag)

/-- ET `elem.findall(tag)`: all direct children with the given tag, in order. -/
def xfindall (e : Xml) (tag : String) : List Xml :=
  e.children.filter (fun c => c.tag == tag)

/-- `elem.find(tag).text`: Python raises `AttributeError` when `find`
returns `None`; otherwise the result is the child's text. -/
def etText (e : Xml) (tag : String) : Except PyErr (Option String) :=
  match xfind e tag with
  | Option.none => Except.error PyErr.attributeError
  | Option.some c => Except.ok c.text

/-- Characters allowed in a tag name by the mini XML reader. -/
def isNameChar (c : Char) : Bool :=
  c.isAlpha || c.isDigit || c = '_' || c = '-'

/-- Reader for the XML fragment language the service actually returns
(attribute-free nested elements whose text holds no angle bracket), with
explicit fuel; parses a sibling sequence and stops in front of a closing
tag. Returns the parsed siblings and the unconsumed input, or fails as
`ET.fromstring` would on anything else. -/
def parseNodes : Nat → List Char → Option (List Xml × List Char)
  | 0, _ => Option.none
  | _ + 1, [] => Option.some ([], [])
  | _ + 1, '<' :: '/' :: rest => Option.some ([], '<' :: '/' :: rest)
  | fuel + 1, '<' :: rest =>
    let name := rest.takeWhile isNameChar
    let rest1 := rest.dropWhile isNameChar
    if name = [] then Option.none
    else
      match rest1 with
      | '>' :: rest2 =>
        let finish := fun (content : List Xml × Option String) (rest3 : List Char) =>
          match rest3 with
          | '<' :: '/' :: rest4 =>
            if name.isPrefixOf rest4 then
              match rest4.drop name.length with
              | '>' :: rest5 =>
                match parseNodes fuel rest5 with
                | Option.some (sibs, restF) =>
                  Option.some (Xml.node (String.mk name) content.1 content.2 :: sibs, restF)
                | Option.none => Option.none
              | _ => Option.none
            else Option.none
          | _ => Option.none
        match rest2 with
        | '<' :: '/' :: rest3 => finish ([], Option.none) ('<' :: '/' :: rest3)
        | '<' :: rest3 =>
          match parseNodes fuel ('<' :: rest3) with
          | Option.some (kids, restK) => finish (kids, Option.none) restK
          | Option.none => Option.none
        | rest3 =>
          let txt := rest3.takeWhile (fun c => c ≠ '<')
          if txt = [] then Option.none
          else finish ([], Option.some (String.mk txt)) (rest3.dropWhile (fun c => c ≠ '<'))
      | _ => Option.none
  | _ + 1, _ => Option.none

/-- `ET.fromstring`: the body must be one well-formed root element with
nothing after it. -/
def fromstring (s : String) : Option Xml :=
  match parseNodes (2 * s.length + 2) s.toList with
  | Option.some ([root], []) => Option.some root
  | _ => Option.none

/-- Rendering of a `datetime` (a UTC instant, seconds since the epoch) by
`datetime.isoformat()`. The ISO-8601 rendering is an injective function of
the instant for UTC-aware datetimes; it is modelled as the decimal seconds
rendering followed by the UTC offset suffix that `isoformat` appends. -/
def isoformat (t : Int) : String :=
  String.mk (intReprL t ++ ['+', '0', '0', ':', '0', '0'])

/-- Modelled from the spec: the inverse reading of an ISO-8601 UTC timestamp
rendered by `isoformat`, needed for the round-trip property of the
serialization surface (the repository has no from-mapping constructor). -/
def parseIso (s : String) : Option Int :=
  if s.toList.length < 6 then Option.none
  else if s.toList.drop (s.toList.length - 6) = ['+', '0', '0', ':', '0', '0'] then
    intParseL (s.toList.take (s.toList.length - 6))
  else Option.none

/-- The paste-metadata container (`PasteDetails` of src/schemas.py). The
`title` constructor argument is stored as the `name` attribute. Fields a
Python caller may fill with `None` are `Option`s. -/
structure PasteDetails : Type where
  key : Option String
  url : Option String
  name : Option String
  size : Int
  created_at : Int
  expires_at : Option Int
  visibility : Option String
  highlighting : Option String
  hits : Int
deriving DecidableEq, Repr

/-- The parameter names of `PasteDetails.__init__` (src/schemas.py
lines 12-23), in order after `self`. -/
def PasteDetails.initParams : List String :=
  ["key", "url", "title", "size", "created_at", "expires_at",
   "visibility", "highlighting", "hits"]

/-- The keyword-argument names used at both `PasteDetails(...)` call sites of
src/client.py (lines 241-251 and 378-388): the first keyword is
`paste_key`, not `key`. -/
def pasteCallKwargs : List String :=
  ["paste_key", "url", "title", "size", "created_at", "expires_at",
   "visibility", "highlighting", "hits"]

/-- Whether a Python keyword call succeeds: every keyword must name a
parameter (else `TypeError: unexpected keyword argument`) and every
parameter must be supplied (else `TypeError: missing required argument`;
none of the two constructors has defaults). -/
def pyCallOk (kwargs params : List String) : Bool :=
  kwargs.all (fun k => params.contains k) && params.all (fun p => kwargs.contains p)

/-- `PyVal` of an optional string (Python `None` or `str`). -/
def PyVal.ofOptStr : Option String → PyVal
  | Option.none => PyVal.none
  | Option.some s => PyVal.str s

/-- `PasteDetails.to_dict` (src/schemas.py lines 34-48): the plain key-value
mapping, timestamps as ISO-8601 strings, `None` for an absent
`expires_at` (datetimes are always truthy in Python, so the
`if self.expires_at` test is exactly presence). -/
def PasteDetails.to_dict (p : PasteDetails) : List (String × PyVal) :=
  [("key", PyVal.ofOptStr p.key),
   ("url", PyVal.ofOptStr p.url),
   ("title", PyVal.ofOptStr p.name),
   ("size", PyVal.int p.size),
   ("created_at", PyVal.str (isoformat p.created_at)),
   ("expires_at", match p.expires_at with
     | Option.some t => PyVal.str (isoformat t)
     | Option.none => PyVal.none),
   ("visibility", PyVal.ofOptStr p.visibility),
   ("highlighting", PyVal.ofOptStr p.highlighting),
   ("hits", PyVal.int p.hits)]

/-- Read an optional-string field out of the plain mapping. -/
def getOptStr (d : List (String × PyVal)) (k : String) : Option (Option String) :=
  match dictGet d k with
  | Option.some (PyVal.str s) => Option.some (Option.some s)
  | Option.some PyVal.none => Option.some Option.none
  | _ => Option.none

/-- Read an integer field out of the plain mapping. -/
def getInt (d : List (String × PyVal)) (k : String) : Option Int :=
  match dictGet d k with
  | Option.some (PyVal.int n) => Option.some n
  | _ => Option.none

/-- Modelled from the spec: the conversion back from the plain mapping
produced by `PasteDetails.to_dict` (the repository exposes the mapping for
JSON export but has no constructor from it; the spec's round-trip sentence
fixes its meaning: read each field, timestamps from their ISO-8601
strings, `null` as an absent optional). -/
def PasteDetails.from_dict (d : List (String × PyVal)) : Option PasteDetails := do
  let key ← getOptStr d "key"
  let url ← getOptStr d "url"
  let title ← getOptStr d "title"
  let size ← getInt d "size"
  let created_at ←
    match dictGet d "created_at" with
    | Option.some (PyVal.str s) => parseIso s
    | _ => Option.none
  let expires_at ←
    match dictGet d "expires_at" with
    | Option.some PyVal.none => Option.some Option.none
    | Option.some (PyVal.str s) => (parseIso s).map Option.some
    | _ => Option.none
  let visibility ← getOptStr d "visibility"
  let highlighting ← getOptStr d "highlighting"
  let hits ← getInt d "hits"
  pure { key := key, url := url, name := title, size := size,
         created_at := created_at, expires_at := expires_at,
         visibility := visibility, highlighting := highlighting, hits := hits }

/-- The user-metadata container (`UserDetails` of src/schemas.py). -/
structure UserDetails : Type where
  username : Option String
  avatar_url : Option String
  default_highlighting : Option String
  default_expiration : Option String
  default_visibility : String
  website : Option String
  email : Option String
  location : Option String
  account_type : String
deriving DecidableEq, Repr

/-- The parameter names of `UserDetails.__init__` (src/schemas.py
lines 59-70), in order after `self`. -/
def UserDetails.initParams : List String :=
  ["username", "avatar_url", "default_highlighting", "default_expiration",
   "default_visibility", "website", "email", "location", "account_type"]

/-- The keyword-argument names used at the `UserDetails(...)` call site of
src/client.py lines 438-448. -/
def userCallKwargs : List String :=
  ["username", "avatar_url", "default_highlighting", "default_expiration",
   "default_visibility", "website", "email", "location", "account_type"]

/-- The `x if x else None` normalization of website/email/location
(src/client.py lines 444-446). -/
def normEmpty (o : Option String) : Option String :=
  if pyTruthy o then o else Option.none

/-- The state a `PastebinClient` holds across calls (src/client.py
lines 86-98): the developer key and the four session defaults, all `None`
until a successful login. -/
structure ClientState : Type where
  dev_key : String
  default_user_key : Option String
  default_highlighting : Option String
  default_expiration : Option String
  default_visibility : Option String
deriving DecidableEq, Repr

/-- `PastebinClient.__init__`: only the developer key is set. -/
def PastebinClient.init (dev_key : String) : ClientState :=
  { dev_key := dev_key, default_user_key := Option.none,
    default_highlighting := Option.none, default_expiration := Option.none,
    default_visibility := Option.none }

/-- The canonical paste URL prefix a successful creation response must carry
(src/client.py line 217). -/
def PASTE_URL_BASE : String := "https://pastebin.com/"

/-- The `if x is None and self.default_x: x = self.default_x` fallback of
src/client.py lines 168-173. -/
def resolveDefault (arg dflt : Option String) : Option String :=
  if arg = Option.none ∧ pyTruthy dflt then dflt else arg

/-- The fully resolved visibility of a `create_paste` call: explicit argument,
else the stored session default, else the hardcoded "unlisted"
(src/client.py lines 170-171 and 176). -/
def resolveVisibility (st : ClientState) (vis : Option String) : String :=
  pyOrStr (resolveDefault vis st.default_visibility) "unlisted"

/-- The fully resolved lifespan of a `create_paste` call: explicit argument,
else the stored session default, else the hardcoded "10M"
(src/client.py lines 172-173 and 177). -/
def resolveLifespan (st : ClientState) (life : Option String) : String :=
  pyOrStr (resolveDefault life st.default_expiration) "10M"

/-- The resolved highlighting of a `create_paste` call (src/client.py
lines 168-169): the explicit argument, else the stored session default;
there is no hardcoded fallback. -/
def resolveHighlighting (st : ClientState) (high : Option String) : Option String :=
  resolveDefault high st.default_highlighting

/-- `PastebinClient.fetch_user_key` (src/client.py lines 100-125). -/
def fetch_user_key (st : ClientState) (username password : String)
    (resp : HttpResponse) : Except PyErr String × List Payload :=
  let payload : Payload :=
    [("api_dev_key", PyVal.str st.dev_key),
     ("api_user_name", PyVal.str username),
     ("api_user_password", PyVal.str password)]
  if resp.status_code == 200 then
    if strStartsWith resp.text "Bad API request" then
      (Except.error PyErr.authError, [payload])
    else
      (Except.ok (pyStrip resp.text), [payload])
  else
    (Except.error PyErr.transportError, [payload])

/-- The title mapping of src/client.py line 359:
`title = raw_title if raw_title else "Untitled"` — an empty or absent
text maps to the literal "Untitled". -/
def pasteTitleFrom (raw_title : Option String) : String :=
  if pyTruthy raw_title then raw_title.getD "" else "Untitled"

/-- The fields of one `<paste>` fragment as `user_pastes` reads them
(src/client.py lines 353-376), up to but not including the
`PasteDetails(...)` call; the record holds the values the keyword
arguments would receive. -/
def parsePasteFields (e : Xml) : Except PyErr PasteDetails := do
  let paste_key ← etText e "paste_key"
  let created_ts ← pyInt (← etText e "paste_date")
  let raw_title ← etText e "paste_title"
  let title := pasteTitleFrom raw_title
  let size ← pyInt (← etText e "paste_size")
  let expire_ts ← pyInt (← etText e "paste_expire_date")
  let expires_at := if expire_ts == 0 then Option.none else Option.some expire_ts
  let visibility_int ← pyInt (← etText e "paste_private")
  let visibility_str := visibilityIntToStr visibility_int
  let highlighting ← etText e "paste_format_short"
  let url ← etText e "paste_url"
  let hits ← pyInt (← etText e "paste_hits")
  pure { key := paste_key, url := url, name := Option.some title, size := size,
         created_at := created_ts, expires_at := expires_at,
         visibility := Option.some visibility_str, highlighting := highlighting,
         hits := hits }

/-- One loop iteration of `user_pastes`: read the fragment's fields, then
perform the `PasteDetails(paste_key=..., ...)` keyword call of
src/client.py lines 378-388, which raises `TypeError` when the keyword
names do not fit `PasteDetails.__init__`. -/
def parsePasteElem (e : Xml) : Except PyErr PasteDetails := do
  let p ← parsePasteFields e
  if pyCallOk pasteCallKwargs PasteDetails.initParams then pure p
  else throw PyErr.typeError

/-- The `for paste_elem in root.findall("paste")` loop of `user_pastes`:
fragments are mapped in order and the first exception aborts the call. -/
def parsePastes : List Xml → Except PyErr (List PasteDetails)
  | [] => Except.ok []
  | e :: rest => do
    let p ← parsePasteElem e
    let ps ← parsePastes rest
    pure (p :: ps)

/-- `PastebinClient.user_pastes` (src/client.py lines 319-391). -/
def user_pastes (st : ClientState) (user_key : Option String) (limit : Int)
    (resp : HttpResponse) : Except PyErr (List PasteDetails) × List Payload :=
  let uk := pyOrOpt user_key st.default_user_key
  let payload : Payload :=
    [("api_option", PyVal.str "list"),
     ("api_dev_key", PyVal.str st.dev_key),
     ("api_user_key", PyVal.ofOptStr uk),
     ("api_results_limit", PyVal.int limit)]
  if resp.status_code != 200 then (Except.error PyErr.transportError, [payload])
  else if pyStrip resp.text == "No pastes found." then (Except.ok [], [payload])
  else
    match fromstring ("<root>" ++ resp.text ++ "</root>") with
    | Option.none => (Except.error PyErr.parseError, [payload])
    | Option.some root => (parsePastes (xfindall root "paste"), [payload])

/-- The parsing half of `PastebinClient.user_details` (src/client.py
lines 420-448), including the `UserDetails(...)` keyword call. -/
def parseUserRoot (root : Xml) : Except PyErr UserDetails := do
  let username ← etText root "user_name"
  let default_highlighting ← etText root "user_format_short"
  let default_expiration ← etText root "user_expiration"
  let avatar_url ← etText root "user_avatar_url"
  let visibility_int ← pyInt (← etText root "user_private")
  let default_visibility := visibilityIntToStr visibility_int
  let website ← etText root "user_website"
  let email ← etText root "user_email"
  let location ← etText root "user_location"
  let account_type_int ← pyInt (← etText root "user_account_type")
  let account_type := accountTypeIntToStr account_type_int
  if pyCallOk userCallKwargs UserDetails.initParams then
    pure { username := username, avatar_url := avatar_url,
           default_highlighting := default_highlighting,
           default_expiration := default_expiration,
           default_visibility := default_visibility,
           website := normEmpty website, email := normEmpty email,
           location := normEmpty location, account_type := account_type }
  else throw PyErr.typeError

/-- `PastebinClient.user_details` (src/client.py lines 393-448). -/
def user_details (st : ClientState) (user_key : Option String)
    (resp : HttpResponse) : Except PyErr UserDetails × List Payload :=
  let uk := pyOrOpt user_key st.default_user_key
  let payload : Payload :=
    [("api_option", PyVal.str "userdetails"),
     ("api_dev_key", PyVal.str st.dev_key),
     ("api_user_key", PyVal.ofOptStr uk)]
  if resp.status_code != 200 then (Except.error PyErr.transportError, [payload])
  else
    match fromstring resp.text with
    | Option.none => (Except.error PyErr.parseError, [payload])
    | Option.some root => (parseUserRoot root, [payload])

/-- `PastebinClient.login` (src/client.py lines 127-138): the fetched session
key is stored into `default_user_key` first, then `user_details` is called
and only on its success are the three preference defaults stored. The
result is the state after the call, the outcome, and the issued requests. -/
def login (st : ClientState) (username password : String)
    (r1 r2 : HttpResponse) : ClientState × Except PyErr Unit × List Payload :=
  match fetch_user_key st username password r1 with
  | (Except.error e, reqs1) => (st, Except.error e, reqs1)
  | (Except.ok key, reqs1) =>
    match user_details { st with default_user_key := Option.some key }
        (Option.some key) r2 with
    | (Except.error e, reqs2) =>
      ({ st with default_user_key := Option.some key },
       Except.error e, reqs1 ++ reqs2)
    | (Except.ok ud, reqs2) =>
      ({ st with default_user_key := Option.some key,
                 default_highlighting := ud.default_highlighting,
                 default_expiration := ud.default_expiration,
                 default_visibility := Option.some ud.default_visibility },
       Except.ok (), reqs1 ++ reqs2)

/-- `PastebinClient.create_paste` (src/client.py lines 140-251). The two
`datetime.now(tz=timezone.utc)` calls are the explicit instants
`nowExpire` (line 238, used for `expires_at`) and `nowCreate` (line 246,
used for `created_at`). -/
def create_paste (st : ClientState) (text : String)
    (name highlighting visibility lifespan folder_key user_key : Option String)
    (nowExpire nowCreate : Int) (resp : HttpResponse) :
    Except PyErr PasteDetails × List Payload :=
  let uk := pyOrOpt user_key st.default_user_key
  let high := resolveHighlighting st highlighting
  let vis := resolveVisibility st visibility
  let life := resolveLifespan st lifespan
  if !(visOK vis) then (Except.error PyErr.valueError, [])
  else if !(LIFESPAN_OPTIONS.contains life) then (Except.error PyErr.valueError, [])
  else
    match dictGet VISIBILITY_MAP_STR_TO_INT vis with
    | Option.none => (Except.error PyErr.keyError, [])
    | Option.some private_code =>
      if pyTruthy high && !(HIGHLIGHTING_OPTIONS.contains (high.getD "")) then
        (Except.error PyErr.valueError, [])
      else
        let payload : Payload :=
          [("api_dev_key", PyVal.str st.dev_key),
           ("api_option", PyVal.str "paste"),
           ("api_paste_code", PyVal.str text),
           ("api_paste_private", PyVal.int private_code),
           ("api_paste_expire_date", PyVal.str life)]
          ++ (if pyTruthy high then [("api_paste_format", PyVal.str (high.getD ""))] else [])
          ++ (if pyTruthy name then [("api_paste_name", PyVal.str (name.getD ""))] else [])
          ++ (if pyTruthy folder_key then [("api_folder_key", PyVal.str (folder_key.getD ""))] else [])
          ++ (if pyTruthy uk then [("api_user_key", PyVal.str (uk.getD ""))] else [])
        if resp.status_code != 200 then (Except.error PyErr.transportError, [payload])
        else
          let full_url := pyStrip resp.text
          if !(strStartsWith full_url PASTE_URL_BASE) then
            (Except.error PyErr.apiError, [payload])
          else
            let paste_key := lastSegment full_url
            let expires_res : Except PyErr (Option Int) :=
              if life != "N" then
                match dictGet LIFESPAN_TO_TIMEDELTA life with
                | Option.some (Option.some d) => Except.ok (Option.some (nowExpire + d))
                | Option.some Option.none => Except.error PyErr.typeError
                | Option.none => Except.error PyErr.keyError
              else Except.ok Option.none
            match expires_res with
            | Except.error e => (Except.error e, [payload])
            | Except.ok expires_at =>
              if pyCallOk pasteCallKwargs PasteDetails.initParams then
                (Except.ok { key := Option.some paste_key,
                             url := Option.some full_url, name := name,
                             size := (text.length : Int),
                             created_at := nowCreate, expires_at := expires_at,
                             visibility := Option.some vis,
                             highlighting := high, hits := 0 }, [payload])
              else (Except.error PyErr.typeError, [payload])

/-- `PastebinClient.delete_paste` (src/client.py lines 253-278). -/
def delete_paste (st : ClientState) (paste_key : String)
    (user_key : Option String) (resp : HttpResponse) :
    Except PyErr Unit × List Payload :=
  let uk := pyOrOpt user_key st.default_user_key
  let payload : Payload :=
    [("api_dev_key", PyVal.str st.dev_key),
     ("api_user_key", PyVal.ofOptStr uk),
     ("api_paste_key", PyVal.str paste_key),
     ("api_option", PyVal.str "delete")]
  if resp.status_code != 200 then (Except.error PyErr.transportError, [payload])
  else if pyStrip resp.text != "Paste Removed" then
    (Except.error PyErr.apiError, [payload])
  else (Except.ok (), [payload])

/-- `PastebinClient.fetch_paste_raw` (src/client.py lines 280-317): the
user-owned shape POSTs to the private endpoint, the public shape GETs the
raw URL with an empty form body. -/
def fetch_paste_raw (st : ClientState) (paste_key : String)
    (user_owned : Bool) (user_key : Option String) (resp : HttpResponse) :
    Except PyErr String × List Payload :=
  let uk := pyOrOpt user_key st.default_user_key
  let payload : Payload :=
    if user_owned then
      [("api_option", PyVal.str "show_paste"),
       ("api_dev_key", PyVal.str st.dev_key),
       ("api_user_key", PyVal.ofOptStr uk),
       ("api_paste_key", PyVal.str paste_key)]
    else []
  if resp.status_code != 200 then (Except.error PyErr.transportError, [payload])
  else (Except.ok resp.text, [payload])

/-- A client immediately after construction (no login yet), used as a
concrete state in the evaluations below. -/
def st0 : ClientState := PastebinClient.init "dev"

/-- A concrete one-fragment listing body whose `paste_title` element is
present but empty, as the service sends for an untitled paste. -/
def listingBody : String :=
  "<paste><paste_key>abc</paste_key><paste_date>100</paste_date>" ++
  "<paste_title></paste_title><paste_size>5</paste_size>" ++
  "<paste_expire_date>0</paste_expire_date><paste_private>1</paste_private>" ++
  "<paste_format_short>text</paste_format_short>" ++
  "<paste_url>https://pastebin.com/abc</paste_url>" ++
  "<paste_hits>0</paste_hits></paste>"

/-- The fragment of `listingBody` as the XML reader produces it. -/
def pasteElem1 : Xml :=
  Xml.node "paste"
    [Xml.node "paste_key" [] (Option.some "abc"),
     Xml.node "paste_date" [] (Option.some "100"),
     Xml.node "paste_title" [] Option.none,
     Xml.node "paste_size" [] (Option.some "5"),
     Xml.node "paste_expire_date" [] (Option.some "0"),
     Xml.node "paste_private" [] (Option.some "1"),
     Xml.node "paste_format_short" [] (Option.some "text"),
     Xml.node "paste_url" [] (Option.some "https://pastebin.com/abc"),
     Xml.node "paste_hits" [] (Option.some "0")]
    Option.none

/-- The wrapped document of `listingBody`. -/
def listingRoot : Xml := Xml.node "root" [pasteElem1] Option.none

/-- The field values `user_pastes` computes for `pasteElem1` before the
`PasteDetails(...)` keyword call. -/
def pasteFields1 : PasteDetails :=
  { key := Option.some "abc", url := Option.some "https://pastebin.com/abc",
    name := Option.some "Untitled", size := 5, created_at := 100,
    expires_at := Option.none, visibility := Option.some "unlisted",
    highlighting := Option.some "text", hits := 0 }

/-! Helper lemmas about the decimal and ISO renderings. -/

theorem digitChar_digit_spec (d : Nat) (h : d < 10) :
    isDigitChar (digitChar d) = true ∧ charDigit (digitChar d) = d := by
  interval_cases d <;> exact ⟨rfl, rfl⟩

theorem natReprL_ne_nil (n : Nat) : natReprL n ≠ [] := by
  unfold natReprL
  split
  · simp
  · rename_i h
    have hd : Nat.digits 10 n ≠ [] := Nat.digits_ne_nil_iff_ne_zero.mpr h
    simp [hd]

theorem natReprL_all_digits (n : Nat) :
    (natReprL n).all isDigitChar = true := by
  unfold natReprL
  split
  · decide
  · rw [List.all_eq_true]
    intro c hc
    rw [List.mem_reverse, List.mem_map] at hc
    obtain ⟨d, hd, rfl⟩ := hc
    exact (digitChar_digit_spec d (Nat.digits_lt_base (by norm_num) hd)).1

theorem natParseL_natReprL (n : Nat) : natParseL (natReprL n) = Option.some n := by
  unfold natParseL
  rw [if_pos ⟨natReprL_ne_nil n, natReprL_all_digits n⟩]
  congr 1
  unfold natReprL
  split
  · rename_i h
    subst h
    simp [charDigit, Nat.ofDigits]
  · rw [List.reverse_reverse, List.map_map]
    have hmap : (Nat.digits 10 n).map (charDigit ∘ digitChar) = Nat.digits 10 n := by
      conv_rhs => rw [← List.map_id (Nat.digits 10 n)]
      apply List.map_congr_left
      intro d hd
      exact (digitChar_digit_spec d (Nat.digits_lt_base (by norm_num) hd)).2
    rw [hmap, Nat.ofDigits_digits]

theorem natReprL_head_digit (n : Nat) (c : Char)
    (h : (natReprL n).head? = Option.some c) : isDigitChar c = true := by
  have hm : c ∈ natReprL n := List.mem_of_mem_head? h
  have hall := natReprL_all_digits n
  rw [List.all_eq_true] at hall
  exact hall c hm

theorem intParseL_intReprL (t : Int) : intParseL (intReprL t) = Option.some t := by
  unfold intParseL intReprL
  split
  · rename_i h
    simp only [List.head?_cons, List.tail_cons]
    rw [if_pos trivial, natParseL_natReprL]
    show Option.some (-(((-t).toNat : Int))) = Option.some t
    rw [Int.toNat_of_nonneg (by omega), neg_neg]
  · rename_i h
    have h1 : ¬ (natReprL t.toNat).head? = Option.some '-' :=
      fun hc => absurd (natReprL_head_digit t.toNat '-' hc) (by decide)
    have h2 : ¬ (natReprL t.toNat).head? = Option.some '+' :=
      fun hc => absurd (natReprL_head_digit t.toNat '+' hc) (by decide)
    rw [if_neg h1, if_neg h2, natParseL_natReprL]
    show Option.some ((t.toNat : Int)) = Option.some t
    rw [Int.toNat_of_nonneg (by omega)]

theorem parseIso_isoformat (t : Int) : parseIso (isoformat t) = Option.some t := by
  have hL : (isoformat t).toList = intReprL t ++ ['+', '0', '0', ':', '0', '0'] := rfl
  have hdrop : (intReprL t ++ ['+', '0', '0', ':', '0', '0']).drop (intReprL t).length
      = ['+', '0', '0', ':', '0', '0'] := by simp
  have htake : (intReprL t ++ ['+', '0', '0', ':', '0', '0']).take (intReprL t).length
      = intReprL t := by simp
  have hlen : (intReprL t ++ ['+', '0', '0', ':', '0', '0']).length
      = (intReprL t).length + 6 := by simp
  unfold parseIso
  rw [hL, hlen, if_neg (by omega), Nat.add_sub_cancel, hdrop, if_pos rfl, htake,
    intParseL_intReprL]

/-- Claim C10: serializing a paste-metadata instance to its plain key-value
mapping (timestamps as ISO-8601 strings, null for absent optionals) and
converting back preserves key, url, title, size, visibility, highlighting,
hits and the timestamps: the round trip recovers the instance exactly. -/
theorem claim10_roundtrip (p : PasteDetails) :
    PasteDetails.from_dict (PasteDetails.to_dict p) = Option.some p := by
  obtain ⟨k, u, n, s, c, e, v, h, hi⟩ := p
  cases k <;> cases u <;> cases n <;> cases e <;> cases v <;> cases h <;>
    simp [PasteDetails.to_dict, PasteDetails.from_dict, getOptStr, getInt,
      dictGet, List.find?, PyVal.ofOptStr, parseIso_isoformat]

/-- Claim C9: the numeric-code-to-name visibility mapping used on listing
fragments and user-details responses yields "public" for 0, "unlisted"
for 1, "private" for 2, and "public" for every other integer code. -/
theorem claim9_visibility_map :
    visibilityIntToStr 0 = "public" ∧ visibilityIntToStr 1 = "unlisted" ∧
    visibilityIntToStr 2 = "private" ∧
    ∀ n : Int, n ≠ 0 → n ≠ 1 → n ≠ 2 → visibilityIntToStr n = "public" := by
  refine ⟨rfl, rfl, rfl, ?_⟩
  intro n h0 h1 h2
  have e0 : ((0 : Int) == n) = false := by simp [Ne.symm h0]
  have e1 : ((1 : Int) == n) = false := by simp [Ne.symm h1]
  have e2 : ((2 : Int) == n) = false := by simp [Ne.symm h2]
  simp [visibilityIntToStr, dictGetD, dictGet, VISIBILITY_MAP_INT_TO_STR,
    List.find?, e0, e1, e2]

/-- Witness for C9 at the unrecognized code 99. -/
theorem claim9_witness : visibilityIntToStr 99 = "public" :=
  claim9_visibility_map.2.2.2 99 (by decide) (by decide) (by decide)

/-- Claim C7: a listing request answered with success status and the body
exactly "No pastes found." makes `user_pastes` return the empty list, with
no error, whatever the client state, session key and limit. -/
theorem claim7_no_pastes_empty (st : ClientState) (uk : Option String)
    (lim : Int) :
    (user_pastes st uk lim ⟨200, "No pastes found."⟩).fst = Except.ok [] := rfl

/-- Counterexample to claim C6: under success status, a body that is NOT the
literal string "Paste Removed" — here it carries a trailing newline — still
makes `delete_paste` return silently, because the code compares the
stripped body; so "for every other body it raises ApiError" is false. -/
theorem claim6_counterexample :
    (delete_paste st0 "abc123" Option.none ⟨200, "Paste Removed\n"⟩).fst
      = Except.ok () ∧ "Paste Removed\n" ≠ "Paste Removed" := by
  exact ⟨rfl, by decide⟩

/-- Claim C6 as amended: under success status, `delete_paste` returns
silently exactly when the body stripped of surrounding whitespace equals
"Paste Removed", and raises ApiError for every body that does not strip to
that acknowledgment. -/
theorem claim6_amended (st : ClientState) (pk : String) (uk : Option String)
    (resp : HttpResponse) (hs : resp.status_code = 200) :
    ((delete_paste st pk uk resp).fst = Except.ok () ↔
      pyStrip resp.text = "Paste Removed") ∧
    (pyStrip resp.text ≠ "Paste Removed" →
      (delete_paste st pk uk resp).fst = Except.error PyErr.apiError) := by
  unfold delete_paste
  rw [hs]
  simp only [bne_self_eq_false, Bool.false_eq_true, if_false]
  by_cases h : pyStrip resp.text = "Paste Removed"
  · rw [h]
    simp
  · constructor
    · have hb : (pyStrip resp.text != "Paste Removed") = true := by
        simpa using h
      rw [hb]
      simp [h]
    · intro _
      have hb : (pyStrip resp.text != "Paste Removed") = true := by
        simpa using h
      rw [hb]
      simp

/-- Witness for the amended C6 at a concrete failing body. -/
theorem claim6_amended_witness :
    ((delete_paste st0 "k" Option.none ⟨200, "Bad API request"⟩).fst
        = Except.ok () ↔ pyStrip "Bad API request" = "Paste Removed") ∧
    (pyStrip "Bad API request" ≠ "Paste Removed" →
      (delete_paste st0 "k" Option.none ⟨200, "Bad API request"⟩).fst
        = Except.error PyErr.apiError) :=
  claim6_amended st0 "k" Option.none ⟨200, "Bad API request"⟩ rfl

/-- Counterexample to claim C2: with a fresh client, a login whose session-key
fetch succeeds but whose user-details fetch fails (HTTP 500) fails as a
whole, yet the session-key default has been modified from `None` to the
fetched key — not all four defaults are left unmodified. -/
theorem claim2_counterexample :
    (login st0 "alice" "pw" ⟨200, "sessionkey123"⟩ ⟨500, "server error"⟩).snd.fst
      = Except.error PyErr.transportError ∧
    st0.default_user_key = Option.none ∧
    (login st0 "alice" "pw" ⟨200, "sessionkey123"⟩ ⟨500, "server error"⟩).fst.default_user_key
      = Option.some "sessionkey123" := by
  exact ⟨rfl, rfl, rfl⟩

/-- Claim C2 as amended: a failed login leaves the three preference defaults
(default highlighting, expiration and visibility) unmodified; the
session-key default is unmodified when the session-key fetch itself fails,
but is already committed to the fetched key when only the subsequent
user-details fetch fails. -/
theorem claim2_amended (st : ClientState) (u p : String)
    (r1 r2 : HttpResponse)
    (hfail : ∃ e, (login st u p r1 r2).snd.fst = Except.error e) :
    ((login st u p r1 r2).fst.default_highlighting = st.default_highlighting ∧
     (login st u p r1 r2).fst.default_expiration = st.default_expiration ∧
     (login st u p r1 r2).fst.default_visibility = st.default_visibility) ∧
    (∀ e, (fetch_user_key st u p r1).fst = Except.error e →
      (login st u p r1 r2).fst = st) ∧
    (∀ k, (fetch_user_key st u p r1).fst = Except.ok k →
      (login st u p r1 r2).fst
        = { st with default_user_key := Option.some k }) := by
  obtain ⟨e0, he0⟩ := hfail
  rcases hf : fetch_user_key st u p r1 with ⟨res1, reqs1⟩
  cases res1 with
  | error e =>
    have hL : login st u p r1 r2 = (st, Except.error e, reqs1) := by
      unfold login
      rw [hf]
    rw [hL]
    refine ⟨⟨rfl, rfl, rfl⟩, fun _ _ => rfl, fun k hk => ?_⟩
    simp at hk
  | ok key =>
    rcases hd : user_details { st with default_user_key := Option.some key }
        (Option.some key) r2 with ⟨res2, reqs2⟩
    cases res2 with
    | error e =>
      have hL : login st u p r1 r2
          = ({ st with default_user_key := Option.some key },
             Except.error e, reqs1 ++ reqs2) := by
        unfold login
        rw [hf]
        simp only [hd]
      rw [hL]
      refine ⟨⟨rfl, rfl, rfl⟩, fun e' he' => ?_, fun k hk => ?_⟩
      · simp at he'
      · simp only [Except.ok.injEq] at hk
        subst hk
        rfl
    | ok ud =>
      have hL : (login st u p r1 r2).snd.fst = Except.ok () := by
        unfold login
        rw [hf]
        simp only [hd]
      rw [hL] at he0
      cases he0

/-- Witness for the amended C2: a concrete login whose user-details fetch
fails, with every hypothesis discharged by evaluation. -/
theorem claim2_amended_witness :
    ((login st0 "alice" "pw" ⟨200, "sk1"⟩ ⟨500, "x"⟩).fst.default_highlighting
        = st0.default_highlighting ∧
     (login st0 "alice" "pw" ⟨200, "sk1"⟩ ⟨500, "x"⟩).fst.default_expiration
        = st0.default_expiration ∧
     (login st0 "alice" "pw" ⟨200, "sk1"⟩ ⟨500, "x"⟩).fst.default_visibility
        = st0.default_visibility) ∧
    (∀ e, (fetch_user_key st0 "alice" "pw" ⟨200, "sk1"⟩).fst = Except.error e →
      (login st0 "alice" "pw" ⟨200, "sk1"⟩ ⟨500, "x"⟩).fst = st0) ∧
    (∀ k, (fetch_user_key st0 "alice" "pw" ⟨200, "sk1"⟩).fst = Except.ok k →
      (login st0 "alice" "pw" ⟨200, "sk1"⟩ ⟨500, "x"⟩).fst
        = { st0 with default_user_key := Option.some k }) :=
  claim2_amended st0 "alice" "pw" ⟨200, "sk1"⟩ ⟨500, "x"⟩
    ⟨PyErr.transportError, rfl⟩

/-- Counterexample to claim C4: the explicitly supplied highlighting "" is
present (not None) and outside the allow-list, yet `create_paste` does not
fail with ValidationError and it does issue a network request — the
`if highlighting:` guard skips validation for a falsy (empty) string. -/
theorem claim4_counterexample :
    (Option.some "" ≠ (Option.none : Option String)) ∧
    HIGHLIGHTING_OPTIONS.contains "" = false ∧
    (create_paste st0 "x" Option.none (Option.some "") Option.none Option.none
        Option.none Option.none 0 0 ⟨200, "https://pastebin.com/k"⟩).snd.length = 1 ∧
    (create_paste st0 "x" Option.none (Option.some "") Option.none Option.none
        Option.none Option.none 0 0 ⟨200, "https://pastebin.com/k"⟩).fst
      = Except.error PyErr.typeError := by
  exact ⟨by decide, by decide, rfl, rfl⟩

/-- Claim C4 as amended: after the documented fallback resolution, a
visibility outside {public, unlisted, private} or a lifespan outside the
9-code set makes `create_paste` fail with ValidationError before any
request is issued; and a resolved highlighting that is present AND
non-empty and outside the allow-list does the same (a present empty
highlighting skips the check). -/
theorem claim4_amended (st : ClientState) (text : String)
    (name high vis life folder uk : Option String) (nE nC : Int)
    (resp : HttpResponse) :
    (visOK (resolveVisibility st vis) = false ∨
        LIFESPAN_OPTIONS.contains (resolveLifespan st life) = false →
      create_paste st text name high vis life folder uk nE nC resp
        = (Except.error PyErr.valueError, [])) ∧
    (visOK (resolveVisibility st vis) = true →
     LIFESPAN_OPTIONS.contains (resolveLifespan st life) = true →
     pyTruthy (resolveHighlighting st high) = true →
     HIGHLIGHTING_OPTIONS.contains ((resolveHighlighting st high).getD "") = false →
      create_paste st text name high vis life folder uk nE nC resp
        = (Except.error PyErr.valueError, [])) := by
  constructor
  · intro h
    rcases h with hv | hl
    · simp [create_paste, hv]
    · by_cases hv : visOK (resolveVisibility st vis)
      · have hl' : resolveLifespan st life ∉ LIFESPAN_OPTIONS := by simpa using hl
        simp [create_paste, hv, hl']
      · simp [create_paste, hv]
  · intro hv hl hh hcont
    obtain ⟨pc, hpc⟩ := Option.isSome_iff_exists.mp hv
    simp [create_paste, hv, hl, hh, hcont, hpc]
    intro _ hmem
    exact absurd hmem (by simpa using hcont)

/-- Witness for the amended C4: an unknown visibility and an unknown
non-empty highlighting each produce ValidationError with no request. -/
theorem claim4_amended_witness :
    create_paste st0 "x" Option.none Option.none (Option.some "purple")
        Option.none Option.none Option.none 0 0 ⟨200, "https://pastebin.com/k"⟩
      = (Except.error PyErr.valueError, []) ∧
    create_paste st0 "x" Option.none (Option.some "klingon") Option.none
        Option.none Option.none Option.none 0 0 ⟨200, "https://pastebin.com/k"⟩
      = (Except.error PyErr.valueError, []) :=
  ⟨(claim4_amended st0 "x" Option.none Option.none (Option.some "purple")
      Option.none Option.none Option.none 0 0 ⟨200, "https://pastebin.com/k"⟩).1
      (Or.inl (by decide)),
   (claim4_amended st0 "x" Option.none (Option.some "klingon") Option.none
      Option.none Option.none Option.none 0 0 ⟨200, "https://pastebin.com/k"⟩).2
      (by decide) (by decide) (by decide) (by decide)⟩

/-- The keyword names used at the `PasteDetails(...)` call sites do not fit
`PasteDetails.__init__`: `paste_key` is unexpected and `key` is missing. -/
theorem pasteCtor_mismatch :
    pyCallOk pasteCallKwargs PasteDetails.initParams = false := by decide

/-- Every lifespan code of the enumeration other than "N" has an entry in the
local offset table. -/
theorem lifespan_delta_ok (l : String)
    (hl : LIFESPAN_OPTIONS.contains l = true) (hn : l ≠ "N") :
    ∃ d, dictGet LIFESPAN_TO_TIMEDELTA l = Option.some (Option.some d) := by
  simp [LIFESPAN_OPTIONS] at hl
  rcases hl with rfl | rfl | rfl | rfl | rfl | rfl | rfl | rfl | rfl
  · exact absurd rfl hn
  all_goals exact ⟨_, rfl⟩

/-- A fragment whose fields all read back raises TypeError at the
`PasteDetails(paste_key=...)` keyword call. -/
theorem parsePasteElem_typeerror (e : Xml) (p : PasteDetails)
    (hf : parsePasteFields e = Except.ok p) :
    parsePasteElem e = Except.error PyErr.typeError := by
  simp [parsePasteElem, hf, pasteCtor_mismatch]
  rfl

/-- Claim C1: every execution of `create_paste` or `user_pastes` that reaches
the construction of a paste-metadata result (validation passed and the
HTTP response is success-shaped) raises TypeError instead of returning:
both call sites construct `PasteDetails` with the keyword `paste_key`, but
the constructor names that parameter `key`. -/
theorem claim1_typeerror_at_construction :
    (∀ (st : ClientState) (text : String)
        (name high vis life folder uk : Option String) (nE nC : Int)
        (resp : HttpResponse),
      visOK (resolveVisibility st vis) = true →
      LIFESPAN_OPTIONS.contains (resolveLifespan st life) = true →
      (pyTruthy (resolveHighlighting st high) &&
        !(HIGHLIGHTING_OPTIONS.contains ((resolveHighlighting st high).getD "")))
        = false →
      resp.status_code = 200 →
      strStartsWith (pyStrip resp.text) PASTE_URL_BASE = true →
      (create_paste st text name high vis life folder uk nE nC resp).fst
        = Except.error PyErr.typeError) ∧
    (∀ (st : ClientState) (ukk : Option String) (lim : Int)
        (resp : HttpResponse) (root e : Xml) (rest : List Xml)
        (p : PasteDetails),
      resp.status_code = 200 →
      pyStrip resp.text ≠ "No pastes found." →
      fromstring ("<root>" ++ resp.text ++ "</root>") = Option.some root →
      xfindall root "paste" = e :: rest →
      parsePasteFields e = Except.ok p →
      (user_pastes st ukk lim resp).fst = Except.error PyErr.typeError) := by
  constructor
  · intro st text name high vis life folder uk nE nC resp hv hl hh hs hp
    obtain ⟨pc, hpc⟩ := Option.isSome_iff_exists.mp hv
    have hh' : ¬(pyTruthy (resolveHighlighting st high) = true ∧
        (resolveHighlighting st high).getD "" ∉ HIGHLIGHTING_OPTIONS) := by
      rintro ⟨h1, h2⟩
      rw [h1, Bool.true_and] at hh
      simp only [Bool.not_eq_false'] at hh
      exact h2 (by simpa using hh)
    have hl' : resolveLifespan st life ∈ LIFESPAN_OPTIONS := by simpa using hl
    by_cases hn : resolveLifespan st life = "N"
    · simp [create_paste, hv, hl, hh, hpc, hs, hp, hn, pasteCtor_mismatch]
      rw [if_pos (by decide : ("N" : String) ∈ LIFESPAN_OPTIONS), if_neg hh']
    · obtain ⟨d, hd2⟩ := lifespan_delta_ok _ hl hn
      simp [create_paste, hv, hl, hh, hpc, hs, hp, hn, hd2, pasteCtor_mismatch]
      rw [if_pos hl', if_neg hh']
  · intro st ukk lim resp root e rest p hs hne hparse hfind hfields
    have hpe := parsePasteElem_typeerror e p hfields
    simp [user_pastes, hs, hne, hparse, hfind, parsePastes, hpe]
    rfl

set_option maxRecDepth 100000 in
/-- Witness for C1: a concrete successful-looking creation response and a
concrete one-fragment listing both end in TypeError. -/
theorem claim1_witness :
    (create_paste st0 "hi" Option.none Option.none (Option.some "public")
        (Option.some "N") Option.none Option.none 0 0
        ⟨200, "https://pastebin.com/x"⟩).fst = Except.error PyErr.typeError ∧
    (user_pastes st0 (Option.some "uk") 50 ⟨200, listingBody⟩).fst
      = Except.error PyErr.typeError :=
  ⟨claim1_typeerror_at_construction.1 st0 "hi" Option.none Option.none
      (Option.some "public") (Option.some "N") Option.none Option.none 0 0
      ⟨200, "https://pastebin.com/x"⟩ rfl rfl rfl rfl rfl,
   claim1_typeerror_at_construction.2 st0 (Option.some "uk") 50
      ⟨200, listingBody⟩ listingRoot pasteElem1 [] pasteFields1 rfl
      (by decide) rfl rfl rfl⟩

/-- Claim C3 fails on the code (code bug): the offset table matches the
documented durations exactly (in seconds: 10 minutes, 1 hour, 1 day,
1 week, 2 weeks, 30 days, 180 days, 365 days, and no expiration for "N"),
and `expires_at` is computed from it — but `create_paste` never returns
the metadata: at the construction point it raises TypeError (keyword
`paste_key` vs parameter `key`), here evaluated on a successful "1H"
creation at arbitrary clock instants. -/
theorem claim3_code_bug_eval (nE nC : Int) :
    (create_paste st0 "hi" Option.none Option.none (Option.some "unlisted")
        (Option.some "1H") Option.none Option.none nE nC
        ⟨200, "https://pastebin.com/abc"⟩).fst = Except.error PyErr.typeError ∧
    dictGet LIFESPAN_TO_TIMEDELTA "10M" = Option.some (Option.some 600) ∧
    dictGet LIFESPAN_TO_TIMEDELTA "1H" = Option.some (Option.some 3600) ∧
    dictGet LIFESPAN_TO_TIMEDELTA "1D" = Option.some (Option.some 86400) ∧
    dictGet LIFESPAN_TO_TIMEDELTA "1W" = Option.some (Option.some 604800) ∧
    dictGet LIFESPAN_TO_TIMEDELTA "2W" = Option.some (Option.some 1209600) ∧
    dictGet LIFESPAN_TO_TIMEDELTA "1M" = Option.some (Option.some 2592000) ∧
    dictGet LIFESPAN_TO_TIMEDELTA "6M" = Option.some (Option.some 15552000) ∧
    dictGet LIFESPAN_TO_TIMEDELTA "1Y" = Option.some (Option.some 31536000) ∧
    dictGet LIFESPAN_TO_TIMEDELTA "N" = Option.some Option.none :=
  ⟨rfl, rfl, rfl, rfl, rfl, rfl, rfl, rfl, rfl, rfl⟩

/-- Claim C5 fails on the code (code bug): on the spec's end-to-end creation
scenario (success status, body the canonical paste URL with trailing
segment "abc123", text "hello", lifespan "N"), the response passes the
canonical-prefix acceptance check and the trailing path segment is
"abc123", a non-URL-shaped body does raise ApiError, and the submitted
text has length 5 — but instead of returning that metadata the call
raises TypeError at the `PasteDetails(paste_key=...)` construction. -/
theorem claim5_code_bug_eval :
    (create_paste st0 "hello" Option.none (Option.some "python")
        (Option.some "unlisted") (Option.some "N") Option.none Option.none 0 0
        ⟨200, "https://pastebin.com/abc123"⟩).fst
      = Except.error PyErr.typeError ∧
    strStartsWith (pyStrip "https://pastebin.com/abc123") PASTE_URL_BASE = true ∧
    lastSegment "https://pastebin.com/abc123" = "abc123" ∧
    (create_paste st0 "hello" Option.none (Option.some "python")
        (Option.some "unlisted") (Option.some "N") Option.none Option.none 0 0
        ⟨200, "Bad API request, invalid api_dev_key"⟩).fst
      = Except.error PyErr.apiError ∧
    ("hello".length : Int) = 5 :=
  ⟨rfl, rfl, rfl, rfl, rfl⟩

set_option maxRecDepth 100000 in
/-- Claim C8 fails on the code (code bug): for a listing fragment whose title
element is present and empty, the mapping step does compute the literal
"Untitled" (and the same for an absent text), and those are the field
values handed to the construction — but `user_pastes` then raises
TypeError at the `PasteDetails(paste_key=...)` keyword call, so no paste
metadata titled "Untitled" (or titled anything) is ever produced. -/
theorem claim8_code_bug_eval :
    pasteTitleFrom Option.none = "Untitled" ∧
    pasteTitleFrom (Option.some "") = "Untitled" ∧
    parsePasteFields pasteElem1 = Except.ok pasteFields1 ∧
    pasteFields1.name = Option.some "Untitled" ∧
    (user_pastes st0 (Option.some "uk") 50 ⟨200, listingBody⟩).fst
      = Except.error PyErr.typeError :=
  ⟨rfl, rfl, rfl, rfl, rfl⟩
